import Mathlib

/-!
Formal model of the box2d_lights light-mesh library (cugl::b2dlights generation).

The C++ source computes in single-precision floats; we model the arithmetic
exactly over `ℚ`.  Calls to the trigonometric functions are modelled by oracle
parameters `cosD sinD : ℚ → ℚ` standing for `x ↦ cos (x · π / 180)` and
`x ↦ sin (x · π / 180)` (the source always converts degrees to radians with
`* (M_PI / 180)` immediately before calling `cos`/`sin`).  The physics world's
nearest-hit raycast (`ObstacleWorld::rayCast` plus the `Light::ray` callback of
`Light.h`, which records the reported point and fraction at the current ray
index) is modelled by a function returning the nearest hit, if any.

Float arrays (`mx`, `my`, `f`, `_endX`, `_endY`, `_startX`, `_startY`) are
modelled as `List ℚ`; a full in-place rewrite of the indices `0 .. numRays-1`
of a presized array is modelled as replacing the list by a `map` over
`List.range numRays`, and `push_back` as list append, following each source
function exactly.
-/

namespace B2DLights

/-- Model of `cugl::Vec2` (two floats). -/
structure Vec2 where
  x : ℚ
  y : ℚ
deriving DecidableEq

/-- Model of `cugl::Color4` (rgba). -/
structure Color4 where
  r : ℚ
  g : ℚ
  b : ℚ
  a : ℚ
deriving DecidableEq

/-- Model of `Light::_defaultColor = Color4::BLUE` (Light.h). -/
def defaultColor : Color4 := ⟨0, 0, 1, 1⟩

/-- Model of `LightVert` from Light.h: position, color, attenuation fraction. -/
structure LightVert where
  pos : Vec2
  color : Color4
  frac : ℚ
deriving DecidableEq

/-- One raycast result: the reported obstruction point and the fraction along
the segment at which it occurs. -/
structure RayHit where
  point : Vec2
  fraction : ℚ

/-- The geometry query port: given start and target of a segment, the world
reports the nearest obstruction (if any).  Models
`ObstacleWorld::rayCast(callback, start, end)` with the `Light::ray` callback
of Light.h, which stores the reported point and fraction. -/
def World := Vec2 → Vec2 → Option RayHit

/-- A world with no obstructions: every raycast reports no hit. -/
def noObstructions : World := fun _ _ => none

/-- Net effect on `(mx[i], my[i], f[i])` of one iteration of the raycast loop:
the source presets `f[i] = 1.0f`, `mx[i]/my[i]` to the world-space target, then
calls `world->rayCast(ray, start, target)`, whose callback overwrites them with
the nearest hit's point and fraction when an obstruction exists. -/
def castRay (w : World) (start target : Vec2) : ℚ × ℚ × ℚ :=
  match w start target with
  | some h => (h.point.x, h.point.y, h.fraction)
  | none => (target.x, target.y, 1)

/-- State of a positional light (`PositionalLight`, covering `PointLight` and
`ConeLight`; Light.h + PositionalLight.h + ConeLight.h fields).  `direction`
and `coneDegree` exist only on cones and are ignored by point lights. -/
structure PosLight where
  pos : Vec2
  numRays : ℕ
  color : Color4
  radius : ℚ
  direction : ℚ
  coneDegree : ℚ
  dirty : Bool
  endX : List ℚ
  endY : List ℚ
  mx : List ℚ
  my : List ℚ
  f : List ℚ
  lightVerts : List LightVert
  lightIndx : List ℕ
deriving DecidableEq

/-- Embeds `Light::init(pos, numRays)` followed by `PositionalLight::init`
(Light.cpp / PositionalLight.cpp): stores position, ray count, default color
and radius, sets the dirty flag, and presizes the per-ray arrays to `numRays`
(`new float[_numRays]`; the unspecified initial contents are modelled as 0). -/
def posInitState (pos : Vec2) (numRays : ℕ) (radius : ℚ) : PosLight :=
  { pos := pos
    numRays := numRays
    color := defaultColor
    radius := radius
    direction := 0
    coneDegree := 0
    dirty := true
    endX := List.replicate numRays 0
    endY := List.replicate numRays 0
    mx := List.replicate numRays 0
    my := List.replicate numRays 0
    f := List.replicate numRays 0
    lightVerts := []
    lightIndx := [] }

/-- Embeds `ConeLight::init(pos, numRays, radius, direction, degree)` (ConeLight.cpp):
positional init plus `_direction = direction; _coneDegree = degree`. -/
def coneInitState (pos : Vec2) (numRays : ℕ) (radius : ℚ) (direction : ℚ)
    (degree : ℚ) : PosLight :=
  { posInitState pos numRays radius with direction := direction, coneDegree := degree }

/-- Embeds `ConeLight::setConeDegree(float dir)` from
src/box2d_lights/source/ConeLight.h, lines 98-105, exactly as written:

    if (dir > 0.01f) { _direction = dir; } else { _direction = 0.01f; }
    _dirty = true;

Note that the body assigns `_direction`, not `_coneDegree`. -/
def setConeDegree (s : PosLight) (dir : ℚ) : PosLight :=
  if dir > 1/100 then { s with direction := dir, dirty := true }
  else { s with direction := 1/100, dirty := true }

/-- Embeds `ConeLight::setDirection(float dir)` (ConeLight.h lines 63-66):
`_direction = dir; _dirty = true;`. -/
def setDirection (s : PosLight) (dir : ℚ) : PosLight :=
  { s with direction := dir, dirty := true }

/-- Embeds `PositionalLight::setRadius(float radius)` (PositionalLight.h):
`_radius = radius; _dirty = true;`. -/
def setRadius (s : PosLight) (radius : ℚ) : PosLight :=
  { s with radius := radius, dirty := true }

/-- Embeds `PointLight::calculateEndpoints()` from src/unnamed (PointLight.cpp
of the b2dlights generation), lines 80-100: for each `i < numRays`,
`angleNum = 360 / (numRays - 1)`, `angle = angleNum * i` (degrees, converted
to radians before `sin`/`cos`), `_endX[i] = radius * cos(angle)`,
`_endY[i] = radius * sin(angle)`. -/
def pointCalculateEndpoints (cosD sinD : ℚ → ℚ) (s : PosLight) : PosLight :=
  let angleNum : ℚ := 360 / ((s.numRays : ℚ) - 1)
  { s with
    endX := (List.range s.numRays).map (fun (i : ℕ) => s.radius * cosD (angleNum * (i : ℚ)))
    endY := (List.range s.numRays).map (fun (i : ℕ) => s.radius * sinD (angleNum * (i : ℚ))) }

/-- Embeds `ConeLight::calculateEndpoints()` (ConeLight.cpp of the b2dlights
generation, lines 46-65): for each `i < numRays`,
`angle = direction + 0.5*coneDegree - coneDegree*i/(numRays-1)` (degrees),
endpoint `(radius * cos angle, radius * sin angle)`. -/
def coneCalculateEndpoints (cosD sinD : ℚ → ℚ) (s : PosLight) : PosLight :=
  { s with
    endX := (List.range s.numRays).map (fun (i : ℕ) =>
      s.radius * cosD (s.direction + (1/2) * s.coneDegree
        - s.coneDegree * (i : ℚ) / ((s.numRays : ℚ) - 1)))
    endY := (List.range s.numRays).map (fun (i : ℕ) =>
      s.radius * sinD (s.direction + (1/2) * s.coneDegree
        - s.coneDegree * (i : ℚ) / ((s.numRays : ℚ) - 1))) }

/-- Embeds `PositionalLight::calculateLightMesh(world)` from
src/box2d_lights/source/PositionalLight.cpp, lines 43-92.  `calcEnds` is the
kind-specific virtual `calculateEndpoints` (point or cone).  The source clears
`_lightVerts`/`_lightIndx`, recomputes endpoints if dirty (without clearing the
flag), then for each ray presets `(mx[i], my[i], f[i])` to the world-space
endpoint and fraction 1 and lets the raycast callback overwrite them; finally
it pushes a centroid vertex `(pos, color, frac 1)` with index 0 and, for each
ray, vertex `((mx[i], my[i]), color, frac (1 - f[i]))` with index `i+1`. -/
def posCalculateLightMesh (calcEnds : PosLight → PosLight) (w : World)
    (s0 : PosLight) : PosLight :=
  let s := if s0.dirty then calcEnds s0 else s0
  let hits := (List.range s.numRays).map (fun i =>
    castRay w s.pos ⟨s.endX.getD i 0 + s.pos.x, s.endY.getD i 0 + s.pos.y⟩)
  let mx := hits.map (fun h => h.1)
  let my := hits.map (fun h => h.2.1)
  let f := hits.map (fun h => h.2.2)
  { s with
    mx := mx
    my := my
    f := f
    lightVerts := ⟨s.pos, s.color, 1⟩ ::
      (List.range s.numRays).map (fun i =>
        ⟨⟨mx.getD i 0, my.getD i 0⟩, s.color, 1 - f.getD i 0⟩)
    lightIndx := 0 :: (List.range s.numRays).map (fun i => i + 1) }

/-- Embeds `PositionalLight::update(delta, world)` from
src/box2d_lights/source/PositionalLight.cpp, lines 30-37:

    if (_dirty) calculateEndpoints();
    _dirty = false;
    calculateLightMesh(world);
-/
def posUpdate (calcEnds : PosLight → PosLight) (w : World) (s : PosLight) :
    PosLight :=
  let s1 := if s.dirty then calcEnds s else s
  posCalculateLightMesh calcEnds w { s1 with dirty := false }

/-- The world-bounds rectangle (`world->getBounds()`): origin and size. -/
structure Rect where
  ox : ℚ
  oy : ℚ
  width : ℚ
  height : ℚ
deriving DecidableEq

/-- State of a `DirectionalLight` (DirectionalLight.h + Light.h fields):
`_startX`/`_startY` are presized raw arrays, `_endX`/`_endY` the inherited
growable vectors. -/
structure DirLight where
  numRays : ℕ
  color : Color4
  direction : ℚ
  dirty : Bool
  startX : List ℚ
  startY : List ℚ
  endX : List ℚ
  endY : List ℚ
  mx : List ℚ
  my : List ℚ
  f : List ℚ
  lightVerts : List LightVert
  lightIndx : List ℕ
deriving DecidableEq

/-- Embeds `DirectionalLight::calculateEndpoints(world)` from
src/box2d_lights/source/DirectionalLight.cpp, lines 89-124, exactly:

    screenSize   = max(bounds.width, bounds.height)
    xAxelOffset  = screenSize * cos(direction°);  yAxelOffset = screenSize * sin(direction°)
    widthOffset  = screenSize * -sin(direction°); heightOffset = screenSize * cos(direction°)
    x = 0.5 * (bounds.origin.x + bounds.size.width) - widthOffset
    y = 0.5 * (bounds.origin.y + bounds.size.width) - heightOffset   // note: width, not height
    portionX = 2*widthOffset /(numRays-1); x = floor(x/(portionX*2)) * portionX*2
    portionY = 2*heightOffset/(numRays-1); y = ceil (y/(portionY*2)) * portionY*2
    for i < numRays: stepX = i*portionX + x; stepY = i*portionY + y
      _startX[i] = stepX - xAxelOffset; _startY[i] = stepY - yAxelOffset
      _endX.push_back(stepX + xAxelOffset); _endY.push_back(stepY + yAxelOffset)

The `push_back` onto `_endX`/`_endY` (without a preceding clear) is modelled
as list append.  (IEEE caveat: when a portion is 0 the source divides a float
by 0; the `ℚ` model then yields 0 instead of NaN — theorems about this
function assume nonzero portions or concrete inputs with nonzero portions.) -/
def dirCalculateEndpoints (cosD sinD : ℚ → ℚ) (bounds : Rect) (s : DirLight) :
    DirLight :=
  let screenSize := if bounds.width > bounds.height then bounds.width else bounds.height
  let c := cosD s.direction
  let sn := sinD s.direction
  let xAxelOffset := screenSize * c
  let yAxelOffset := screenSize * sn
  let widthOffset := screenSize * (-sn)
  let heightOffset := screenSize * c
  let x0 := (1/2) * (bounds.ox + bounds.width) - widthOffset
  let y0 := (1/2) * (bounds.oy + bounds.width) - heightOffset
  let portionX := 2 * widthOffset / ((s.numRays : ℚ) - 1)
  let x := (⌊x0 / (portionX * 2)⌋ : ℚ) * (portionX * 2)
  let portionY := 2 * heightOffset / ((s.numRays : ℚ) - 1)
  let y := (⌈y0 / (portionY * 2)⌉ : ℚ) * (portionY * 2)
  { s with
    startX := (List.range s.numRays).map (fun (i : ℕ) => (i : ℚ) * portionX + x - xAxelOffset)
    startY := (List.range s.numRays).map (fun (i : ℕ) => (i : ℚ) * portionY + y - yAxelOffset)
    endX := s.endX ++ (List.range s.numRays).map (fun (i : ℕ) => (i : ℚ) * portionX + x + xAxelOffset)
    endY := s.endY ++ (List.range s.numRays).map (fun (i : ℕ) => (i : ℚ) * portionY + y + yAxelOffset) }

/-- Embeds `DirectionalLight::calculateLightMesh(world)`
(DirectionalLight.cpp, lines 45-86): clears `mx`/`my`/`f` and the mesh, then
for each ray presets `(mx[i], my[i], f[i]) = (endX[i], endY[i], 1)` and
raycasts `(startX[i], startY[i]) → (endX[i], endY[i])`, the callback
overwriting with the nearest hit; builds interleaved start/hit vertices with
attenuation fraction fixed at 1 and indices `2i, 2i+1`. -/
def dirCalculateLightMesh (w : World) (s : DirLight) : DirLight :=
  let hits := (List.range s.numRays).map (fun i =>
    castRay w ⟨s.startX.getD i 0, s.startY.getD i 0⟩ ⟨s.endX.getD i 0, s.endY.getD i 0⟩)
  let mx := hits.map (fun h => h.1)
  let my := hits.map (fun h => h.2.1)
  let f := hits.map (fun h => h.2.2)
  { s with
    mx := mx
    my := my
    f := f
    lightVerts := (List.range s.numRays).flatMap (fun i =>
      [⟨⟨s.startX.getD i 0, s.startY.getD i 0⟩, s.color, 1⟩,
       ⟨⟨mx.getD i 0, my.getD i 0⟩, s.color, 1⟩])
    lightIndx := (List.range s.numRays).flatMap (fun i => [2 * i, 2 * i + 1]) }

/-- Embeds `DirectionalLight::update(delta, world)` from
src/box2d_lights/source/DirectionalLight.cpp, lines 34-39:

    if (_dirty) calculateEndpoints(world);
    calculateLightMesh(world);

(No assignment to `_dirty` occurs in this function.) -/
def dirUpdate (cosD sinD : ℚ → ℚ) (bounds : Rect) (w : World) (s : DirLight) :
    DirLight :=
  let s1 := if s.dirty then dirCalculateEndpoints cosD sinD bounds s else s
  dirCalculateLightMesh w s1

/-- Embeds `DirectionalLight::init(pos, numRays, direction, world)`
(DirectionalLight.cpp, lines 16-28): base `Light::init` (which sets the dirty
flag and leaves the inherited `_endX`/`_endY` vectors empty), stores the
direction, allocates `_startX`/`_startY`, and runs `calculateEndpoints` once. -/
def dirInit (cosD sinD : ℚ → ℚ) (bounds : Rect) (numRays : ℕ) (direction : ℚ) :
    DirLight :=
  dirCalculateEndpoints cosD sinD bounds
    { numRays := numRays
      color := defaultColor
      direction := direction
      dirty := true
      startX := List.replicate numRays 0
      startY := List.replicate numRays 0
      endX := []
      endY := []
      mx := []
      my := []
      f := []
      lightVerts := []
      lightIndx := [] }

/-- One iteration of the crossing-number loop body shared by
`PositionalLight::contains` and `DirectionalLight::contains`
(`(x1,y1)` the vertex read this iteration, `(x2,y2)` the one carried over):

    if (((y1 < y) && (y2 >= y)) || ((y1 >= y) && (y2 < y)))
      if ((y - y1) / (y2 - y1) * (x2 - x1) < (x - x1)) result = !result;
-/
def crossToggle (x y x1 y1 x2 y2 : ℚ) (res : Bool) : Bool :=
  if (y1 < y ∧ y2 ≥ y) ∨ (y1 ≥ y ∧ y2 < y) then
    if (y - y1) / (y2 - y1) * (x2 - x1) < (x - x1) then !res else res
  else res

/-- The crossing-number loop: visits each vertex of `pts` in order as
`(x1, y1)`, with `prev` the carried `(x2, y2)`; returns the final toggle state
and the final carried vertex. -/
def crossingPass (x y : ℚ) : List (ℚ × ℚ) → (ℚ × ℚ) → Bool → Bool × (ℚ × ℚ)
  | [], prev, res => (res, prev)
  | p :: ps, prev, res =>
      crossingPass x y ps p (crossToggle x y p.1 p.2 prev.1 prev.2 res)

/-- Embeds `PositionalLight::contains(x, y)` from
src/box2d_lights/source/PositionalLight.cpp, lines 98-128: quick radius
reject `if (_radius * _radius <= dst2) return false;`, then a crossing-number
pass visiting `(mx[i], my[i])` for `i < numRays` followed by the anchor, with
the carried vertex initialised to the anchor. -/
def posContains (s : PosLight) (x y : ℚ) : Bool :=
  let xd := s.pos.x - x
  let yd := s.pos.y - y
  let dst2 := xd * xd + yd * yd
  if s.radius * s.radius ≤ dst2 then false
  else
    (crossingPass x y
      (((List.range s.numRays).map (fun i => (s.mx.getD i 0, s.my.getD i 0)))
        ++ [(s.pos.x, s.pos.y)])
      (s.pos.x, s.pos.y) false).1

/-- Embeds `DirectionalLight::contains(x, y)` from
src/box2d_lights/source/DirectionalLight.cpp, lines 130-162: a first
crossing-number pass visiting `(mx[i], my[i])` for `i < numRays` followed by
`(startX[0], startY[0])`, the carried vertex initialised to
`(startX[0], startY[0])`; then a second pass visiting `(startX[i], startY[i])`
for `i < numRays`, carrying over the vertex and toggle state from the first
pass. -/
def dirContains (s : DirLight) (x y : ℚ) : Bool :=
  let s0 : ℚ × ℚ := (s.startX.getD 0 0, s.startY.getD 0 0)
  let pass1 := crossingPass x y
    (((List.range s.numRays).map (fun i => (s.mx.getD i 0, s.my.getD i 0))) ++ [s0])
    s0 false
  (crossingPass x y
    ((List.range s.numRays).map (fun i => (s.startX.getD i 0, s.startY.getD i 0)))
    pass1.2 pass1.1).1

/-- State of the `RayHandler` registry (RayHandler.h fields `_maxVertices`,
`_maxIndices`, `_vertSize`, `_indxSize`).  The raw buffers `_vertData` and
`_indxData` are only ever written at the running cursors; we record the list
of array indices written (`_vertData[_vertSize]` and `_indxData[_indxSize]`)
so that out-of-bounds writes are observable in the model. -/
structure RayHandlerState where
  maxVertices : ℕ
  maxIndices : ℕ
  vertSize : ℕ
  indxSize : ℕ
  vertWrites : List ℕ
  indxWrites : List ℕ
deriving DecidableEq

/-- Embeds `RayHandler::init()` (RayHandler.cpp lines 42-64): cursors 0,
`_maxVertices = DEFAULT_CAPACITY (8192)`, `_maxIndices = 3 * DEFAULT_CAPACITY`,
buffers allocated at exactly those capacities. -/
def rayHandlerInit : RayHandlerState :=
  { maxVertices := 8192
    maxIndices := 3 * 8192
    vertSize := 0
    indxSize := 0
    vertWrites := []
    indxWrites := [] }

/-- The vertex/index append loops shared by `RayHandler::addPointLight`,
`addConeLight`, `addDirectionalLight` and `RayHandler::update`
(RayHandler.cpp): for each mesh vertex, write `_vertData[_vertSize]` and
increment `_vertSize`; likewise for indices.  No bound is consulted. -/
def appendLightData (s : RayHandlerState) (verts : List LightVert)
    (indx : List ℕ) : RayHandlerState :=
  { s with
    vertSize := s.vertSize + verts.length
    indxSize := s.indxSize + indx.length
    vertWrites := s.vertWrites ++ List.range' s.vertSize verts.length
    indxWrites := s.indxWrites ++ List.range' s.indxSize indx.length }

/-- Embeds `RayHandler::addPointLight(vec, numRays, radius)` (RayHandler.cpp
lines 69-94): allocates the light (`PointLight::alloc` → init), runs
`calculateLightMesh(_world)` once immediately, appends its vertices and
indices into the flat buffers, and returns `true`. -/
def addPointLight (cosD sinD : ℚ → ℚ) (w : World) (s : RayHandlerState)
    (vec : Vec2) (numRays : ℕ) (radius : ℚ) : Bool × RayHandlerState :=
  let light := posCalculateLightMesh (pointCalculateEndpoints cosD sinD) w
    (posInitState vec numRays radius)
  (true, appendLightData s light.lightVerts light.lightIndx)

/-! ### Helper lemmas -/

theorem getD_map_range {α : Type} (f : ℕ → α) (d : α) {i n : ℕ} (h : i < n) :
    ((List.range n).map f).getD i d = f i := by
  rw [List.getD_eq_getElem?_getD, List.getElem?_map, List.getElem?_range h]
  rfl

theorem dirCalculateEndpoints_endX_length (cosD sinD : ℚ → ℚ) (b : Rect)
    (s : DirLight) :
    (dirCalculateEndpoints cosD sinD b s).endX.length = s.endX.length + s.numRays := by
  simp only [dirCalculateEndpoints, List.length_append, List.length_map,
    List.length_range]

theorem dirCalculateEndpoints_numRays (cosD sinD : ℚ → ℚ) (b : Rect)
    (s : DirLight) :
    (dirCalculateEndpoints cosD sinD b s).numRays = s.numRays := rfl

theorem dirCalculateEndpoints_dirty (cosD sinD : ℚ → ℚ) (b : Rect)
    (s : DirLight) :
    (dirCalculateEndpoints cosD sinD b s).dirty = s.dirty := rfl

theorem dirCalculateLightMesh_endX (w : World) (s : DirLight) :
    (dirCalculateLightMesh w s).endX = s.endX := rfl

theorem dirCalculateLightMesh_dirty (w : World) (s : DirLight) :
    (dirCalculateLightMesh w s).dirty = s.dirty := rfl

/-! ### Claim theorems -/

/-- Claim C1 (code_bug evaluation): at the failing input — a cone with
`direction = 0`, `coneDegree = 45` and argument `deg = 90` — the setter
`ConeLight::setConeDegree` of ConeLight.h leaves `coneDegree` at 45 and
instead overwrites `direction` with 90 (it does mark the light dirty).  The
claim says `coneDegree` becomes 90 and `direction` stays 0. -/
theorem c1_setConeDegree_eval :
    (setConeDegree (coneInitState ⟨0, 0⟩ 50 5 0 45) 90).coneDegree = 45 ∧
    (setConeDegree (coneInitState ⟨0, 0⟩ 50 5 0 45) 90).direction = 90 ∧
    (setConeDegree (coneInitState ⟨0, 0⟩ 50 5 0 45) 90).dirty = true := by
  norm_num [setConeDegree, coneInitState, posInitState]

/-- Claim C2 (code_bug evaluation): a freshly initialised `DirectionalLight`
has its dirty flag set, and `DirectionalLight::update`
(DirectionalLight.cpp lines 34-39) returns with the dirty flag STILL set —
the function never clears `_dirty`, contradicting the claim that after any
update call the flag is false.  By contrast, `PositionalLight::update` does
clear the flag (last conjunct, for a dirty point light). -/
theorem c2_directional_update_keeps_dirty :
    (dirInit (fun _ => 3/5) (fun _ => 4/5) ⟨0, 0, 4, 2⟩ 3 30).dirty = true ∧
    (dirUpdate (fun _ => 3/5) (fun _ => 4/5) ⟨0, 0, 4, 2⟩ noObstructions
      (dirInit (fun _ => 3/5) (fun _ => 4/5) ⟨0, 0, 4, 2⟩ 3 30)).dirty = true ∧
    (posUpdate (pointCalculateEndpoints (fun _ => 3/5) (fun _ => 4/5))
      noObstructions (posInitState ⟨0, 0⟩ 3 1)).dirty = false := by
  refine ⟨rfl, ?_, rfl⟩
  rw [dirUpdate]
  simp only [dirCalculateLightMesh_dirty]
  rw [if_pos (by rfl)]
  rfl

/-- Claim C3 (code_bug evaluation): `DirectionalLight::calculateEndpoints`
(DirectionalLight.cpp lines 89-124) appends `numRays` fresh entries to
`_endX`/`_endY` with `push_back` without clearing the previous ones.  After
`init` (first computation) the arrays have length `numRays = 3`; after the
first `update` (which recomputes endpoints because the dirty flag was never
cleared) they have length 6, not `numRays`, while the mesh loop keeps reading
the stale entries `0 .. numRays-1`. -/
theorem c3_directional_endpoint_growth :
    (dirInit (fun _ => 3/5) (fun _ => 4/5) ⟨0, 0, 4, 2⟩ 3 30).endX.length = 3 ∧
    (dirUpdate (fun _ => 3/5) (fun _ => 4/5) ⟨0, 0, 4, 2⟩ noObstructions
      (dirInit (fun _ => 3/5) (fun _ => 4/5) ⟨0, 0, 4, 2⟩ 3 30)).endX.length = 6 ∧
    (dirUpdate (fun _ => 3/5) (fun _ => 4/5) ⟨0, 0, 4, 2⟩ noObstructions
      (dirInit (fun _ => 3/5) (fun _ => 4/5) ⟨0, 0, 4, 2⟩ 3 30)).numRays = 3 := by
  refine ⟨?_, ?_, ?_⟩
  · rw [dirInit, dirCalculateEndpoints_endX_length]
    rfl
  · rw [dirUpdate]
    simp only [dirCalculateLightMesh_endX]
    rw [if_pos (by rfl)]
    rw [dirCalculateEndpoints_endX_length]
    rw [dirInit, dirCalculateEndpoints_endX_length, dirCalculateEndpoints_numRays]
    rfl
  · rfl

/-- Claim C7 (confirmed): `PointLight::calculateEndpoints` produces, for each
`i < numRays`, the local endpoint
`(radius * cos(angle_i), radius * sin(angle_i))` with
`angle_i = i * (360 / (numRays - 1))` degrees, and — because
`cos`/`sin` agree at 0° and 360° (hypotheses `hc`/`hs` on the trig oracle) —
the endpoints generated for `i = 0` and `i = numRays - 1` coincide. -/
theorem c7_point_endpoints (cosD sinD : ℚ → ℚ) (s : PosLight)
    (h3 : 3 ≤ s.numRays) (hc : cosD 360 = cosD 0) (hs : sinD 360 = sinD 0) :
    (∀ i < s.numRays,
      (pointCalculateEndpoints cosD sinD s).endX.getD i 0
          = s.radius * cosD ((i : ℚ) * (360 / ((s.numRays : ℚ) - 1))) ∧
      (pointCalculateEndpoints cosD sinD s).endY.getD i 0
          = s.radius * sinD ((i : ℚ) * (360 / ((s.numRays : ℚ) - 1)))) ∧
    (pointCalculateEndpoints cosD sinD s).endX.getD 0 0
        = (pointCalculateEndpoints cosD sinD s).endX.getD (s.numRays - 1) 0 ∧
    (pointCalculateEndpoints cosD sinD s).endY.getD 0 0
        = (pointCalculateEndpoints cosD sinD s).endY.getD (s.numRays - 1) 0 := by
  have hn0 : 0 < s.numRays := by omega
  have hlast : s.numRays - 1 < s.numRays := by omega
  have hcast : ((s.numRays - 1 : ℕ) : ℚ) = (s.numRays : ℚ) - 1 := by
    push_cast [Nat.cast_sub (by omega : 1 ≤ s.numRays)]
    ring
  have hne : ((s.numRays : ℚ) - 1) ≠ 0 := by
    have : (3 : ℚ) ≤ (s.numRays : ℚ) := by exact_mod_cast h3
    linarith
  refine ⟨?_, ?_, ?_⟩
  · intro i hi
    simp only [pointCalculateEndpoints, getD_map_range _ _ hi]
    constructor <;> ring_nf
  · simp only [pointCalculateEndpoints, getD_map_range _ _ hn0,
      getD_map_range _ _ hlast, hcast]
    rw [mul_comm (360 / ((s.numRays : ℚ) - 1)) ((s.numRays : ℚ) - 1),
      show ((s.numRays : ℚ) - 1) * (360 / ((s.numRays : ℚ) - 1)) = 360 from by
        field_simp]
    norm_num [hc]
  · simp only [pointCalculateEndpoints, getD_map_range _ _ hn0,
      getD_map_range _ _ hlast, hcast]
    rw [mul_comm (360 / ((s.numRays : ℚ) - 1)) ((s.numRays : ℚ) - 1),
      show ((s.numRays : ℚ) - 1) * (360 / ((s.numRays : ℚ) - 1)) = 360 from by
        field_simp]
    norm_num [hs]

/-- Witness for C7: instantiation at a concrete point light with
`numRays = 3`, `radius = 2` and a (trivially 360°-periodic) trig oracle. -/
theorem c7_point_endpoints_witness :
    3 ≤ (posInitState ⟨0, 0⟩ 3 2).numRays ∧
    (pointCalculateEndpoints (fun _ => 1) (fun _ => 0)
        (posInitState ⟨0, 0⟩ 3 2)).endX.getD 0 0
      = (pointCalculateEndpoints (fun _ => 1) (fun _ => 0)
        (posInitState ⟨0, 0⟩ 3 2)).endX.getD 2 0 := by
  have h := c7_point_endpoints (fun _ => 1) (fun _ => 0)
    (posInitState ⟨0, 0⟩ 3 2) (by norm_num [posInitState]) rfl rfl
  exact ⟨by norm_num [posInitState], h.2.1⟩

/-- Claim C10 (confirmed): `PositionalLight::contains` returns `false`
whenever the squared distance from the query point to the anchor equals
`radius * radius` exactly — the quick reject `if (_radius*_radius <= dst2)`
fires on equality, so a point on the bounding circle is never contained. -/
theorem c10_boundary_reject (s : PosLight) (x y : ℚ)
    (h : (s.pos.x - x) * (s.pos.x - x) + (s.pos.y - y) * (s.pos.y - y)
        = s.radius * s.radius) :
    posContains s x y = false := by
  have hle : s.radius * s.radius
      ≤ (s.pos.x - x) * (s.pos.x - x) + (s.pos.y - y) * (s.pos.y - y) :=
    le_of_eq h.symm
  simp [posContains, hle]

/-- Witness for C10: a light of radius 5 anchored at the origin and the
boundary point (3, 4). -/
theorem c10_boundary_reject_witness :
    posContains (posInitState ⟨0, 0⟩ 3 5) 3 4 = false :=
  c10_boundary_reject (posInitState ⟨0, 0⟩ 3 5) 3 4 (by norm_num [posInitState])

/-- Scenario used by C4: a fresh `PointLight` whose mesh is computed once in a
world with no obstructions (as `RayHandler::addPointLight` does via
`calculateLightMesh(_world)`). -/
def unobstructedPointLight (cosD sinD : ℚ → ℚ) (pos : Vec2) (n : ℕ) (r : ℚ) :
    PosLight :=
  posCalculateLightMesh (pointCalculateEndpoints cosD sinD) noObstructions
    (posInitState pos n r)

theorem unobstructedPointLight_core (cosD sinD : ℚ → ℚ) (pos : Vec2) (n : ℕ)
    (r : ℚ) {i : ℕ} (hi : i < n) :
    (unobstructedPointLight cosD sinD pos n r).f.getD i 0 = 1 ∧
    (unobstructedPointLight cosD sinD pos n r).mx.getD i 0
      = r * cosD ((360 / ((n : ℚ) - 1)) * (i : ℚ)) + pos.x ∧
    (unobstructedPointLight cosD sinD pos n r).my.getD i 0
      = r * sinD ((360 / ((n : ℚ) - 1)) * (i : ℚ)) + pos.y := by
  unfold unobstructedPointLight posCalculateLightMesh
  simp only [posInitState, pointCalculateEndpoints, castRay, noObstructions,
    List.map_map, if_true]
  simp only [getD_map_range _ _ hi, Function.comp]
  exact ⟨trivial, trivial, trivial⟩

/-- Trig oracle for a 3-ray point light: the generated angles are 0°, 180°,
360°, where the exact values of cos are 1, -1, 1 and of sin are 0, 0, 0. -/
def cosPL3 : ℚ → ℚ := fun a => if a = 180 then -1 else 1

/-- Companion sine oracle for `cosPL3` (sin of 0°, 180°, 360° is 0). -/
def sinPL3 : ℚ → ℚ := fun _ => 0

/-- Counterexample for C4: for a `PointLight` (anchor (0,0), `numRays = 3`,
`radius = 2`) whose every raycast reports no obstruction, the produced mesh
contains a vertex whose attenuation is NOT `1.0`: every rim vertex stores
`frac = 1 - f[i] = 1 - 1 = 0`.  This refutes the claim that every vertex of
the mesh has attenuation 1.0. -/
theorem c4_counterexample :
    ∃ v ∈ (unobstructedPointLight cosPL3 sinPL3 ⟨0, 0⟩ 3 2).lightVerts,
      v.frac ≠ 1 := by
  have hv : (unobstructedPointLight cosPL3 sinPL3 ⟨0, 0⟩ 3 2).lightVerts
      = [⟨⟨0, 0⟩, defaultColor, 1⟩, ⟨⟨2, 0⟩, defaultColor, 0⟩,
         ⟨⟨-2, 0⟩, defaultColor, 0⟩, ⟨⟨2, 0⟩, defaultColor, 0⟩] := by
    norm_num [unobstructedPointLight, posCalculateLightMesh, posInitState,
      pointCalculateEndpoints, castRay, noObstructions, cosPL3, sinPL3,
      List.range_succ]
  rw [hv]
  exact ⟨⟨⟨2, 0⟩, defaultColor, 0⟩, by simp, by norm_num⟩

/-- Claim C4 as amended: for a `PointLight` with no obstructions, every hit
fraction stays 1, each hit point equals the anchor plus the unobstructed local
endpoint and lies exactly on the circle of the given radius around the anchor
(given that the trig oracle satisfies cos² + sin² = 1); however the mesh
ATTENUATION values are 1.0 only at the centroid — every rim vertex stores
attenuation `1 - hitFraction = 0`. -/
theorem c4_amended (cosD sinD : ℚ → ℚ)
    (hpy : ∀ a, cosD a * cosD a + sinD a * sinD a = 1)
    (pos : Vec2) (n : ℕ) (r : ℚ) :
    (∀ i < n,
      (unobstructedPointLight cosD sinD pos n r).f.getD i 0 = 1 ∧
      (unobstructedPointLight cosD sinD pos n r).mx.getD i 0
        = r * cosD ((360 / ((n : ℚ) - 1)) * (i : ℚ)) + pos.x ∧
      (unobstructedPointLight cosD sinD pos n r).my.getD i 0
        = r * sinD ((360 / ((n : ℚ) - 1)) * (i : ℚ)) + pos.y ∧
      ((unobstructedPointLight cosD sinD pos n r).mx.getD i 0 - pos.x)
          * ((unobstructedPointLight cosD sinD pos n r).mx.getD i 0 - pos.x)
        + ((unobstructedPointLight cosD sinD pos n r).my.getD i 0 - pos.y)
          * ((unobstructedPointLight cosD sinD pos n r).my.getD i 0 - pos.y)
        = r * r) ∧
    ((unobstructedPointLight cosD sinD pos n r).lightVerts.getD 0
        ⟨⟨0, 0⟩, defaultColor, 1⟩).frac = 1 ∧
    (∀ i < n,
      ((unobstructedPointLight cosD sinD pos n r).lightVerts.getD (i + 1)
        ⟨⟨0, 0⟩, defaultColor, 1⟩).frac = 0) := by
  refine ⟨?_, ?_, ?_⟩
  · intro i hi
    obtain ⟨hf, hmx, hmy⟩ := unobstructedPointLight_core cosD sinD pos n r hi
    refine ⟨hf, hmx, hmy, ?_⟩
    rw [hmx, hmy]
    have h := hpy ((360 / ((n : ℚ) - 1)) * (i : ℚ))
    linear_combination r * r * h
  · unfold unobstructedPointLight posCalculateLightMesh
    simp only [List.getD_cons_zero]
  · intro i hi
    unfold unobstructedPointLight posCalculateLightMesh
    simp only [posInitState, pointCalculateEndpoints, castRay, noObstructions,
      List.map_map, if_true, List.getD_cons_succ]
    simp only [getD_map_range _ _ hi, Function.comp]
    norm_num

/-- Witness for C4 (amended): instantiation at the 3-4-5 trig oracle,
anchor (1, 2), `numRays = 3`, `radius = 2`. -/
theorem c4_amended_witness :
    (unobstructedPointLight (fun _ => 3/5) (fun _ => 4/5) ⟨1, 2⟩ 3 2).f.getD 0 0
        = 1 ∧
    ((unobstructedPointLight (fun _ => 3/5) (fun _ => 4/5) ⟨1, 2⟩ 3 2).mx.getD 0 0
            - 1)
        * ((unobstructedPointLight (fun _ => 3/5) (fun _ => 4/5) ⟨1, 2⟩ 3 2).mx.getD 0 0
            - 1)
      + ((unobstructedPointLight (fun _ => 3/5) (fun _ => 4/5) ⟨1, 2⟩ 3 2).my.getD 0 0
            - 2)
        * ((unobstructedPointLight (fun _ => 3/5) (fun _ => 4/5) ⟨1, 2⟩ 3 2).my.getD 0 0
            - 2) = 4 ∧
    ((unobstructedPointLight (fun _ => 3/5) (fun _ => 4/5) ⟨1, 2⟩ 3 2).lightVerts.getD 1
        ⟨⟨0, 0⟩, defaultColor, 1⟩).frac = 0 := by
  have h := c4_amended (fun _ => 3/5) (fun _ => 4/5) (by intro a; norm_num)
    ⟨1, 2⟩ 3 2
  obtain ⟨hmain, _hc, hrim⟩ := h
  obtain ⟨hf, _hmx, _hmy, hcirc⟩ := hmain 0 (by norm_num)
  refine ⟨hf, ?_, hrim 0 (by norm_num)⟩
  have h4 : (2 : ℚ) * 2 = 4 := by norm_num
  exact hcirc.trans h4

theorem posCalculateLightMesh_lightVerts_length (calcEnds : PosLight → PosLight)
    (hn : ∀ t, (calcEnds t).numRays = t.numRays) (w : World) (s0 : PosLight) :
    (posCalculateLightMesh calcEnds w s0).lightVerts.length = s0.numRays + 1 := by
  unfold posCalculateLightMesh
  simp only [List.length_cons, List.length_map, List.length_range]
  split <;> simp [hn]

theorem posCalculateLightMesh_lightIndx_length (calcEnds : PosLight → PosLight)
    (hn : ∀ t, (calcEnds t).numRays = t.numRays) (w : World) (s0 : PosLight) :
    (posCalculateLightMesh calcEnds w s0).lightIndx.length = s0.numRays + 1 := by
  unfold posCalculateLightMesh
  simp only [List.length_cons, List.length_map, List.length_range]
  split <;> simp [hn]

theorem addPointLight_state (cosD sinD : ℚ → ℚ) (w : World)
    (st : RayHandlerState) (vec : Vec2) (n : ℕ) (r : ℚ) :
    (addPointLight cosD sinD w st vec n r).2.vertSize = st.vertSize + (n + 1) ∧
    (addPointLight cosD sinD w st vec n r).2.vertWrites
      = st.vertWrites ++ List.range' st.vertSize (n + 1) ∧
    (addPointLight cosD sinD w st vec n r).2.maxVertices = st.maxVertices := by
  have h1 := posCalculateLightMesh_lightVerts_length
    (pointCalculateEndpoints cosD sinD) (fun t => rfl) w (posInitState vec n r)
  refine ⟨?_, ?_, rfl⟩
  · show st.vertSize
        + (posCalculateLightMesh (pointCalculateEndpoints cosD sinD) w
            (posInitState vec n r)).lightVerts.length = _
    rw [h1]
    rfl
  · show st.vertWrites ++ List.range' st.vertSize
        (posCalculateLightMesh (pointCalculateEndpoints cosD sinD) w
            (posInitState vec n r)).lightVerts.length = _
    rw [h1]
    rfl

/-- Per-light geometry of the overflow scenario: the first `addPointLight`
with `numRays = 8191` (8192 mesh vertices) exactly fills the preallocated
vertex buffer of `DEFAULT_CAPACITY = 8192`. -/
def overflowAdd1 : Bool × RayHandlerState :=
  addPointLight (fun _ => 1) (fun _ => 0) noObstructions rayHandlerInit
    ⟨0, 0⟩ 8191 5

/-- The second `addPointLight` of the overflow scenario. -/
def overflowAdd2 : Bool × RayHandlerState :=
  addPointLight (fun _ => 1) (fun _ => 0) noObstructions overflowAdd1.2
    ⟨1, 1⟩ 8191 5

/-- Claim C6 (code_bug evaluation): after one `addPointLight` with
`numRays = 8191` the vertex cursor sits exactly at the capacity 8192; a second
`addPointLight` then writes `_vertData[8192]` — an index at (and past) the end
of the preallocated array — and both calls still return `true`: no bound is
ever consulted, so the overflow is neither fatal nor reported, contradicting
the claim that no append ever writes past the end. -/
theorem c6_capacity_overflow_eval :
    overflowAdd1.1 = true ∧ overflowAdd2.1 = true ∧
    overflowAdd1.2.vertSize = 8192 ∧
    overflowAdd2.2.maxVertices = 8192 ∧
    8192 ∈ overflowAdd2.2.vertWrites ∧
    overflowAdd2.2.vertSize = 16384 := by
  obtain ⟨hsz1, hwr1, hmax1⟩ := addPointLight_state (fun _ => 1) (fun _ => 0)
    noObstructions rayHandlerInit ⟨0, 0⟩ 8191 5
  obtain ⟨hsz2, hwr2, hmax2⟩ := addPointLight_state (fun _ => 1) (fun _ => 0)
    noObstructions overflowAdd1.2 ⟨1, 1⟩ 8191 5
  have hsz1' : overflowAdd1.2.vertSize = 8192 := by
    rw [overflowAdd1, hsz1]
    rfl
  refine ⟨rfl, rfl, hsz1', ?_, ?_, ?_⟩
  · rw [overflowAdd2, hmax2, overflowAdd1, hmax1]
    rfl
  · rw [overflowAdd2, hwr2, hsz1']
    refine List.mem_append_right _ ?_
    rw [List.mem_range'_1]
    omega
  · rw [overflowAdd2, hsz2, hsz1']

/-- Trig oracle (cosine) for the C8 cone: the generated angles are 53°, 0°,
-53°; we use the exact values of the 3-4-5 triangle, i.e. the cone whose
half-arc is arccos(3/5) ≈ 53.13°. -/
def coneCos : ℚ → ℚ := fun a => if a = 0 then 1 else 3/5

/-- Companion sine oracle for `coneCos` (sin ±53° = ±4/5). -/
def coneSin : ℚ → ℚ := fun a => if a = 0 then 0 else if a < 0 then -(4/5) else 4/5

/-- The C8 cone: anchor (0,0), 3 rays, radius 1, direction 0°, cone arc 106°,
updated once in a world with no obstructions.  Its hit points are
(3/5, 4/5), (1, 0), (3/5, -4/5). -/
def apexCone : PosLight :=
  posUpdate (coneCalculateEndpoints coneCos coneSin) noObstructions
    (coneInitState ⟨0, 0⟩ 3 1 0 106)

/-- Counterexample for C8: `apexCone` is a positional light with
`radius = 1 > 0` whose mesh has been computed, yet `contains` at the anchor
(0, 0) returns `false` — the anchor is a vertex of the hit polygon (the cone's
apex) and the crossing-number walk counts no crossing strictly to its left. -/
theorem c8_counterexample :
    (0 : ℚ) < apexCone.radius ∧ posContains apexCone 0 0 = false := by
  constructor
  · norm_num [apexCone, posUpdate, posCalculateLightMesh,
      coneCalculateEndpoints, coneInitState, posInitState]
  · norm_num [apexCone, posUpdate, posCalculateLightMesh,
      coneCalculateEndpoints, coneInitState, posInitState, castRay,
      noObstructions, coneCos, coneSin, List.range_succ, posContains,
      crossingPass, crossToggle]

/-- Trig oracle (cosine) for the C8 point light with `numRays = 5`: the
generated angles are 0°, 90°, 180°, 270°, 360°, where cosine is exactly
1, 0, -1, 0, 1. -/
def cos5d : ℚ → ℚ := fun a => if a = 90 ∨ a = 270 then 0 else if a = 180 then -1 else 1

/-- Companion sine oracle for `cos5d` (sine of those angles is 0, 1, 0, -1, 0). -/
def sin5d : ℚ → ℚ := fun a => if a = 90 then 1 else if a = 270 then -1 else 0

/-- An unobstructed `PointLight` with 5 rays, radius 2, anchor (0,0), updated
once; its rim hit points are the exact axis points of the radius-2 circle. -/
def fullPoint5 : PosLight :=
  posUpdate (pointCalculateEndpoints cos5d sin5d) noObstructions
    (posInitState ⟨0, 0⟩ 5 2)

/-- Claim C8 as amended: for every positional light, a query point whose
squared distance from the anchor exceeds `radius²` (in particular any point at
distance > radius) is reported not contained; and the anchor is contained for
a full-circle `PointLight` mesh (shown for the unobstructed 5-ray light) —
but NOT for every positional light: a `ConeLight` can report its own anchor
as outside (see the counterexample). -/
theorem c8_amended :
    (∀ (s : PosLight) (x y : ℚ),
      s.radius * s.radius
          < (s.pos.x - x) * (s.pos.x - x) + (s.pos.y - y) * (s.pos.y - y) →
        posContains s x y = false) ∧
    (0 : ℚ) < fullPoint5.radius ∧
    posContains fullPoint5 0 0 = true := by
  refine ⟨?_, ?_, ?_⟩
  · intro s x y h
    have hle : s.radius * s.radius
        ≤ (s.pos.x - x) * (s.pos.x - x) + (s.pos.y - y) * (s.pos.y - y) :=
      le_of_lt h
    simp [posContains, hle]
  · norm_num [fullPoint5, posUpdate, posCalculateLightMesh,
      pointCalculateEndpoints, posInitState]
  · norm_num [fullPoint5, posUpdate, posCalculateLightMesh,
      pointCalculateEndpoints, posInitState, castRay, noObstructions,
      cos5d, sin5d, List.range_succ, posContains, crossingPass, crossToggle]

/-- Witness for C8 (amended): the far-reject applied to a concrete light and
query point at distance 5√2 > radius 1. -/
theorem c8_amended_witness :
    posContains (posInitState ⟨0, 0⟩ 3 1) 5 5 = false :=
  c8_amended.1 (posInitState ⟨0, 0⟩ 3 1) 5 5 (by norm_num [posInitState])

/-- The hit points `(mx[i], my[i])`, `i < numRays`, of a directional light. -/
def dirHitPoints (s : DirLight) : List (ℚ × ℚ) :=
  (List.range s.numRays).map (fun i => (s.mx.getD i 0, s.my.getD i 0))

/-- The ray start points `(startX[i], startY[i])`, `i < numRays`. -/
def dirStartPoints (s : DirLight) : List (ℚ × ℚ) :=
  (List.range s.numRays).map (fun i => (s.startX.getD i 0, s.startY.getD i 0))

/-- The first ray start point `(startX[0], startY[0])`. -/
def dirFirstStart (s : DirLight) : ℚ × ℚ := (s.startX.getD 0 0, s.startY.getD 0 0)

/-- The crossing-number rule applied to an explicit edge list, each edge given
as `((x1, y1), (x2, y2))` — visited vertex first, carried vertex second. -/
def crossingOverEdges (x y : ℚ) (res0 : Bool)
    (edges : List ((ℚ × ℚ) × (ℚ × ℚ))) : Bool :=
  edges.foldl (fun res e => crossToggle x y e.1.1 e.1.2 e.2.1 e.2.2 res) res0

/-- The edge sequence `DirectionalLight::contains` actually traverses: the hit
points visited in order, each paired with the previous vertex starting from
`(startX[0], startY[0])`; an edge from the first start point back to the last
hit point; then the start points visited FORWARD, again starting from the
first start point (so the first of these edges is degenerate and the loop is
never closed through the last start point). -/
def dirTraversedEdges (s : DirLight) : List ((ℚ × ℚ) × (ℚ × ℚ)) :=
  (dirHitPoints s ++ [dirFirstStart s]).zip
      (dirFirstStart s :: (dirHitPoints s ++ [dirFirstStart s]))
    ++ (dirStartPoints s).zip (dirFirstStart s :: dirStartPoints s)

/-- The edges of the closed polygon cycle through the vertices of `l` (each
vertex paired with its predecessor, the first vertex closing against the
last). -/
def cycleEdges (l : List (ℚ × ℚ)) : List ((ℚ × ℚ) × (ℚ × ℚ)) :=
  (l.rotate 1).zip l

/-- The closed loop described by the claim: all hit endpoints traced forward,
then all start points traced backward. -/
def claimedLoop (s : DirLight) : List (ℚ × ℚ) :=
  dirHitPoints s ++ (dirStartPoints s).reverse

theorem crossingPass_eq_edges (x y : ℚ) (pts : List (ℚ × ℚ)) (prev : ℚ × ℚ)
    (res : Bool) :
    crossingPass x y pts prev res
      = (crossingOverEdges x y res (pts.zip (prev :: pts)), pts.getLastD prev) := by
  induction pts generalizing prev res with
  | nil => rfl
  | cons p ps ih =>
      rw [crossingPass, ih]
      refine Prod.ext ?_ ?_
      · simp [crossingOverEdges]
      · rw [List.getLastD_cons]

/-- Claim C9 as amended: `DirectionalLight::contains` is the crossing-number
rule over the edge sequence `dirTraversedEdges` — hit points forward from the
first START point, a closing edge from the last hit point back to the FIRST
start point, then the start points forward again from the first start point
(leaving the last start point unconnected) — not over the claimed closed loop
(hit points forward, start points backward). -/
theorem c9_amended (s : DirLight) (x y : ℚ) :
    dirContains s x y = crossingOverEdges x y false (dirTraversedEdges s) := by
  simp only [dirContains, dirTraversedEdges, crossingPass_eq_edges]
  simp only [dirHitPoints, dirStartPoints, dirFirstStart]
  rw [List.getLastD_concat]
  simp [crossingOverEdges, List.foldl_append]

/-- The concrete directional light used to refute C9: 2 rays pointing up
(direction 90°) from starts (0,0) and (4,0), unobstructed ends at y = 8, both
rays obstructed at y = 2 (hit fraction 1/4).  The mesh fields hold the values
`calculateLightMesh` would store for these hits. -/
def stripState : DirLight :=
  { numRays := 2
    color := defaultColor
    direction := 90
    dirty := false
    startX := [0, 4]
    startY := [0, 0]
    endX := [0, 4]
    endY := [8, 8]
    mx := [0, 4]
    my := [2, 2]
    f := [1/4, 1/4]
    lightVerts := [⟨⟨0, 0⟩, defaultColor, 1⟩, ⟨⟨0, 2⟩, defaultColor, 1⟩,
                   ⟨⟨4, 0⟩, defaultColor, 1⟩, ⟨⟨4, 2⟩, defaultColor, 1⟩]
    lightIndx := [0, 1, 2, 3] }

/-- Counterexample for C9: at the query point (3, 1) — inside the lit
rectangle with corners (0,0) and (4,2) — the crossing-number test over the
claimed closed loop (hit points forward, start points backward) answers
`true`, but `DirectionalLight::contains` answers `false`: its traversal
replaces the edge from the last hit point to the last start point by an edge
back to the FIRST start point, which puts (3, 1) on the outside. -/
theorem c9_counterexample :
    dirContains stripState 3 1 = false ∧
    crossingOverEdges 3 1 false (cycleEdges (claimedLoop stripState)) = true := by
  constructor
  · norm_num [dirContains, stripState, crossingPass, crossToggle,
      List.range_succ]
  · norm_num [crossingOverEdges, cycleEdges, claimedLoop, stripState,
      dirHitPoints, dirStartPoints, crossToggle, List.range_succ,
      List.rotate]

/-! ### C5: the directional grid-origin derivation -/

/-- Value `screenSize = max(width, height)` as DirectionalLight.cpp computes it. -/
def dirScreenSize (b : Rect) : ℚ :=
  if b.width > b.height then b.width else b.height

/-- The per-ray step along x: `2 * widthOffset / (numRays - 1)`. -/
def dirPortionX (sinD : ℚ → ℚ) (b : Rect) (n : ℕ) (dir : ℚ) : ℚ :=
  2 * (dirScreenSize b * (-(sinD dir))) / ((n : ℚ) - 1)

/-- The per-ray step along y: `2 * heightOffset / (numRays - 1)`. -/
def dirPortionY (cosD : ℚ → ℚ) (b : Rect) (n : ℕ) (dir : ℚ) : ℚ :=
  2 * (dirScreenSize b * cosD dir) / ((n : ℚ) - 1)

/-- The pre-snap x origin the source computes:
`0.5 * (origin.x + size.width) - widthOffset`. -/
def dirPreSnapX (sinD : ℚ → ℚ) (b : Rect) (dir : ℚ) : ℚ :=
  (1/2) * (b.ox + b.width) - dirScreenSize b * (-(sinD dir))

/-- The pre-snap y origin the source computes:
`0.5 * (origin.y + size.WIDTH) - heightOffset` (the width is used on the
y axis as well). -/
def dirPreSnapY (cosD : ℚ → ℚ) (b : Rect) (dir : ℚ) : ℚ :=
  (1/2) * (b.oy + b.width) - dirScreenSize b * cosD dir

/-- The snapped grid x origin: `floor(x / (portionX*2)) * portionX*2`. -/
def dirGridX (sinD : ℚ → ℚ) (b : Rect) (n : ℕ) (dir : ℚ) : ℚ :=
  (⌊dirPreSnapX sinD b dir / (dirPortionX sinD b n dir * 2)⌋ : ℚ)
    * (dirPortionX sinD b n dir * 2)

/-- The snapped grid y origin: `ceil(y / (portionY*2)) * portionY*2`. -/
def dirGridY (cosD : ℚ → ℚ) (b : Rect) (n : ℕ) (dir : ℚ) : ℚ :=
  (⌈dirPreSnapY cosD b dir / (dirPortionY cosD b n dir * 2)⌉ : ℚ)
    * (dirPortionY cosD b n dir * 2)

/-- The derivation DESCRIBED BY THE CLAIM, formalised from its words for
comparison with the source: grid origin at the world-bounds rectangle's
center (origin plus half the size, in both the x and y axes) offset by the
perpendicular extent, then snapped to an integer multiple of the per-ray step
(floor-snap on x, ceil-snap on y); ray `i`'s start point is the grid point
minus the axial offset. -/
def claimedStartPoint (cosD sinD : ℚ → ℚ) (b : Rect) (n : ℕ) (dir : ℚ)
    (i : ℕ) : ℚ × ℚ :=
  let screenSize := if b.width > b.height then b.width else b.height
  let c := cosD dir
  let sn := sinD dir
  let xAxelOffset := screenSize * c
  let yAxelOffset := screenSize * sn
  let widthOffset := screenSize * (-sn)
  let heightOffset := screenSize * c
  let cx := b.ox + b.width / 2 - widthOffset
  let cy := b.oy + b.height / 2 - heightOffset
  let portionX := 2 * widthOffset / ((n : ℚ) - 1)
  let portionY := 2 * heightOffset / ((n : ℚ) - 1)
  let gx := (⌊cx / portionX⌋ : ℚ) * portionX
  let gy := (⌈cy / portionY⌉ : ℚ) * portionY
  ((i : ℚ) * portionX + gx - xAxelOffset, (i : ℚ) * portionY + gy - yAxelOffset)

/-- Counterexample for C5: for world bounds origin (0,0), width 4, height 2,
`numRays = 5` and a direction with cos = 7/25, sin = 24/25, the source
(`DirectionalLight::calculateEndpoints`) produces `startY[0] = -68/25`, while
the claim's described derivation (true center `origin + size/2`, which uses
the HEIGHT on the y axis) yields `-96/25`: the source instead computes
`0.5 * (origin.y + width)` — not the center, and with the width on the y
axis — and snaps to a multiple of twice the per-ray step. -/
theorem c5_counterexample :
    (dirInit (fun _ => 7/25) (fun _ => 24/25) ⟨0, 0, 4, 2⟩ 5 0).startY.getD 0 0
        = -68/25 ∧
    (claimedStartPoint (fun _ => 7/25) (fun _ => 24/25) ⟨0, 0, 4, 2⟩ 5 0 0).2
        = -96/25 ∧
    (dirInit (fun _ => 7/25) (fun _ => 24/25) ⟨0, 0, 4, 2⟩ 5 0).startY.getD 0 0
      ≠ (claimedStartPoint (fun _ => 7/25) (fun _ => 24/25) ⟨0, 0, 4, 2⟩ 5 0 0).2 := by
  refine ⟨?_, ?_, ?_⟩
  · norm_num [dirInit, dirCalculateEndpoints, List.range_succ]
    rw [show ⌈(11 : ℚ)/14⌉ = (1 : ℤ) from by rw [Int.ceil_eq_iff]; norm_num]
    norm_num
  · norm_num [claimedStartPoint]
  · norm_num [dirInit, dirCalculateEndpoints, claimedStartPoint,
      List.range_succ]
    rw [show ⌈(11 : ℚ)/14⌉ = (1 : ℤ) from by rw [Int.ceil_eq_iff]; norm_num,
      show ⌈-((3 : ℚ)/14)⌉ = (0 : ℤ) from by rw [Int.ceil_eq_iff]; norm_num]
    norm_num

theorem floorSnap_bound (q d : ℚ) (hd : d ≠ 0) :
    |q - (⌊q / d⌋ : ℚ) * d| < |d| := by
  have h1 : (⌊q / d⌋ : ℚ) ≤ q / d := Int.floor_le _
  have h2 : q / d < (⌊q / d⌋ : ℚ) + 1 := Int.lt_floor_add_one _
  rcases lt_or_gt_of_ne hd with hneg | hpos
  · have h1' : q ≤ (⌊q / d⌋ : ℚ) * d := (le_div_iff_of_neg hneg).mp h1
    have h2' : ((⌊q / d⌋ : ℚ) + 1) * d < q := (div_lt_iff_of_neg hneg).mp h2
    rw [add_mul, one_mul] at h2'
    rw [abs_of_nonpos (by linarith), abs_of_neg hneg]
    linarith
  · have h1' : (⌊q / d⌋ : ℚ) * d ≤ q := (le_div_iff₀ hpos).mp h1
    have h2' : q < ((⌊q / d⌋ : ℚ) + 1) * d := (div_lt_iff₀ hpos).mp h2
    rw [add_mul, one_mul] at h2'
    rw [abs_of_nonneg (by linarith), abs_of_pos hpos]
    linarith

theorem ceilSnap_bound (q d : ℚ) (hd : d ≠ 0) :
    |q - (⌈q / d⌉ : ℚ) * d| < |d| := by
  have h1 : q / d ≤ (⌈q / d⌉ : ℚ) := Int.le_ceil _
  have h2 : (⌈q / d⌉ : ℚ) < q / d + 1 := Int.ceil_lt_add_one _
  have h2a : (⌈q / d⌉ : ℚ) - 1 < q / d := by linarith
  rcases lt_or_gt_of_ne hd with hneg | hpos
  · have h1' : (⌈q / d⌉ : ℚ) * d ≤ q := (div_le_iff_of_neg hneg).mp h1
    have h2' : q < ((⌈q / d⌉ : ℚ) - 1) * d := (lt_div_iff_of_neg hneg).mp h2a
    rw [sub_mul, one_mul] at h2'
    rw [abs_of_nonneg (by linarith), abs_of_neg hneg]
    linarith
  · have h1' : q ≤ (⌈q / d⌉ : ℚ) * d := (div_le_iff₀ hpos).mp h1
    have h2' : ((⌈q / d⌉ : ℚ) - 1) * d < q := (lt_div_iff₀ hpos).mp h2a
    rw [sub_mul, one_mul] at h2'
    rw [abs_of_nonpos (by linarith), abs_of_pos hpos]
    linarith

/-- Claim C5 as amended: `DirectionalLight::calculateEndpoints` lays ray `i`'s
start point at `(i*portionX + gridX - xAxelOffset, i*portionY + gridY -
yAxelOffset)` where the grid origin is the floor/ceil snap of the pre-snap
origin `(0.5*(origin.x + width) - widthOffset, 0.5*(origin.y + WIDTH) -
heightOffset)` — i.e. half of origin-plus-size rather than the center, with
the width also used on the y axis — snapped to an integer multiple of TWICE
the per-ray step (hence still an integer multiple of the per-ray step, shown
by the two existentials), and the snapped origin lies within one snap cell of
the pre-snap origin. -/
theorem c5_amended (cosD sinD : ℚ → ℚ) (b : Rect) (s : DirLight) (i : ℕ)
    (hi : i < s.numRays)
    (hpx : dirPortionX sinD b s.numRays s.direction ≠ 0)
    (hpy : dirPortionY cosD b s.numRays s.direction ≠ 0) :
    ((dirCalculateEndpoints cosD sinD b s).startX.getD i 0
        = (i : ℚ) * dirPortionX sinD b s.numRays s.direction
          + dirGridX sinD b s.numRays s.direction
          - dirScreenSize b * cosD s.direction) ∧
    ((dirCalculateEndpoints cosD sinD b s).startY.getD i 0
        = (i : ℚ) * dirPortionY cosD b s.numRays s.direction
          + dirGridY cosD b s.numRays s.direction
          - dirScreenSize b * sinD s.direction) ∧
    (∃ k : ℤ, dirGridX sinD b s.numRays s.direction
        = (k : ℚ) * dirPortionX sinD b s.numRays s.direction) ∧
    (∃ k : ℤ, dirGridY cosD b s.numRays s.direction
        = (k : ℚ) * dirPortionY cosD b s.numRays s.direction) ∧
    |dirPreSnapX sinD b s.direction - dirGridX sinD b s.numRays s.direction|
      < |2 * dirPortionX sinD b s.numRays s.direction| ∧
    |dirPreSnapY cosD b s.direction - dirGridY cosD b s.numRays s.direction|
      < |2 * dirPortionY cosD b s.numRays s.direction| := by
  refine ⟨?_, ?_, ?_, ?_, ?_, ?_⟩
  · simp only [dirCalculateEndpoints, getD_map_range _ _ hi, dirGridX,
      dirPortionX, dirPreSnapX, dirScreenSize]
  · simp only [dirCalculateEndpoints, getD_map_range _ _ hi, dirGridY,
      dirPortionY, dirPreSnapY, dirScreenSize]
  · refine ⟨⌊dirPreSnapX sinD b s.direction
        / (dirPortionX sinD b s.numRays s.direction * 2)⌋ * 2, ?_⟩
    rw [dirGridX]
    push_cast
    ring
  · refine ⟨⌈dirPreSnapY cosD b s.direction
        / (dirPortionY cosD b s.numRays s.direction * 2)⌉ * 2, ?_⟩
    rw [dirGridY]
    push_cast
    ring
  · have h := floorSnap_bound (dirPreSnapX sinD b s.direction)
      (dirPortionX sinD b s.numRays s.direction * 2)
      (mul_ne_zero hpx two_ne_zero)
    rw [dirGridX]
    rw [mul_comm (2 : ℚ) (dirPortionX sinD b s.numRays s.direction)]
    exact h
  · have h := ceilSnap_bound (dirPreSnapY cosD b s.direction)
      (dirPortionY cosD b s.numRays s.direction * 2)
      (mul_ne_zero hpy two_ne_zero)
    rw [dirGridY]
    rw [mul_comm (2 : ℚ) (dirPortionY cosD b s.numRays s.direction)]
    exact h

/-- The fresh directional-light state used by the C5 witness (5 rays,
direction whose cos is 7/25 and sin 24/25, before any endpoint
computation). -/
def dirWitState : DirLight :=
  { numRays := 5
    color := defaultColor
    direction := 0
    dirty := true
    startX := []
    startY := []
    endX := []
    endY := []
    mx := []
    my := []
    f := []
    lightVerts := []
    lightIndx := [] }

/-- Witness for C5 (amended): instantiation at the bounds (0,0,4,2), 5 rays
and the 7-24-25 trig oracle; the hypotheses (nonzero per-ray steps) are
discharged by computation. -/
theorem c5_amended_witness :
    (dirCalculateEndpoints (fun _ => 7/25) (fun _ => 24/25) ⟨0, 0, 4, 2⟩
        dirWitState).startX.getD 0 0
      = (0 : ℚ) * dirPortionX (fun _ => 24/25) ⟨0, 0, 4, 2⟩ dirWitState.numRays
            dirWitState.direction
        + dirGridX (fun _ => 24/25) ⟨0, 0, 4, 2⟩ dirWitState.numRays
            dirWitState.direction
        - dirScreenSize ⟨0, 0, 4, 2⟩ * (fun (_ : ℚ) => (7 : ℚ)/25) dirWitState.direction := by
  have h := c5_amended (fun _ => 7/25) (fun _ => 24/25) ⟨0, 0, 4, 2⟩
    dirWitState 0 (by norm_num [dirWitState])
    (by norm_num [dirPortionX, dirScreenSize, dirWitState])
    (by norm_num [dirPortionY, dirScreenSize, dirWitState])
  exact h.1

end B2DLights
